import Mathlib

/-!
Verification of the search-bot message-archiving core: the batched-write
ingestion pipeline (src/es/indexer.rs), the live ingestion entry point
(src/bot/message_recorder.rs), and the bulk migration procedure
(src/bin/migrate.rs). Rust structures are embedded as Lean structures;
i64 values are embedded as Int (i32 and i64 BSON widths are collapsed to
Int, since the source widens i32 to i64 on every read path); fallible
code returns Except. Side-effecting collaborators (the document store,
the legacy record store) are passed in as explicit response data, and
network calls are counted explicitly.
-/

namespace SearchBot

/-- MessageType from src/models/message.rs: the closed kind enumeration. -/
inductive MessageType where
  | text
  | photo
  | video
  | document
  | sticker
  | voice
  | animation
  | other
deriving DecidableEq, Repr

/-- Display impl for MessageType from src/models/message.rs. -/
def MessageType.display : MessageType → String
  | .text => "text"
  | .photo => "photo"
  | .video => "video"
  | .document => "document"
  | .sticker => "sticker"
  | .voice => "voice"
  | .animation => "animation"
  | .other => "other"

/-- ChatMessage from src/models/message.rs: the normalized live-path record. -/
structure ChatMessage where
  message_id : Int
  chat_id : Int
  user_id : Option Int
  username : Option String
  display_name : String
  text : String
  date : Int
  reply_to_message_id : Option Int
  message_type : MessageType
  chat_title : Option String
deriving DecidableEq, Repr

/-- MongoMessage from src/bin/migrate.rs: the parsed legacy record. -/
structure MongoMessage where
  message_id : Int
  chat_id : Int
  user_id : Option Int
  text : String
  date : Int
  message_type : String
deriving DecidableEq, Repr

/-- EsMessage from src/bin/migrate.rs: the document shape written by migration. -/
structure EsMessage where
  message_id : Int
  chat_id : Int
  user_id : Option Int
  text : String
  date : Int
  message_type : String
deriving DecidableEq, Repr

/-- From&lt;MongoMessage&gt; for EsMessage (migrate.rs lines 78-97): rescales a
millisecond timestamp (detected as date > 4_000_000_000) to seconds with
truncating division, and always sets message_type to the string "text". -/
def EsMessage.fromMongo (m : MongoMessage) : EsMessage :=
  { message_id := m.message_id
    chat_id := m.chat_id
    user_id := m.user_id
    text := m.text
    date := if m.date > 4000000000 then m.date.tdiv 1000 else m.date
    message_type := "text" }

/-- A legacy MongoDB document as the migration tool reads it. Each field the
tolerant parser (migrate.rs parse_mongo_document) probes is an Option; BSON
i32/i64 widths are collapsed to Int, and an ISODate value is kept as its
millisecond count. -/
structure MongoDoc where
  msg_ctx_message_id : Option Int
  message_id : Option Int
  group_id : Option Int
  chat_id : Option Int
  user_id : Option Int
  msg_ctx_command : Option String
  text : Option String
  content : Option String
  timestamp_dt_ms : Option Int
  date_dt_ms : Option Int
  date_int : Option Int
  timestamp_int : Option Int
  msg_type_num : Option Int
  message_type_str : Option String
  msg_type_str : Option String
  type_str : Option String
deriving DecidableEq, Repr

/-- Date extraction inside parse_mongo_document (migrate.rs lines 442-449):
an ISODate under "timestamp" or "date" is converted from milliseconds to
seconds; otherwise an integer "date" or "timestamp" is taken as seconds. -/
def dateOf (d : MongoDoc) : Option Int :=
  match d.timestamp_dt_ms with
  | some ms => some (ms.tdiv 1000)
  | none =>
    match d.date_dt_ms with
    | some ms => some (ms.tdiv 1000)
    | none =>
      match d.date_int with
      | some v => some v
      | none => d.timestamp_int

/-- parse_mongo_document from migrate.rs lines 413-468: tolerant extraction
with the source's fallback order. message_id prefers msg_ctx.message_id over
the top-level field; chat prefers group_id over chat_id; text prefers
msg_ctx.command, then text, then content, defaulting to the empty string;
a numeric msg_type is rendered as its decimal string, else the string
variants are probed, defaulting to "0". -/
def parse_mongo_document (d : MongoDoc) : Except String MongoMessage :=
  match (d.msg_ctx_message_id).or d.message_id with
  | none => .error "Missing message_id or msg_ctx.message_id"
  | some mid =>
      match (d.group_id).or d.chat_id with
      | none => .error "Missing group_id/chat_id"
      | some cid =>
        match dateOf d with
        | none => .error "Missing date/timestamp"
        | some date =>
          .ok { message_id := mid
                chat_id := cid
                user_id := d.user_id
                text := (((d.msg_ctx_command).or d.text).or d.content).getD ""
                date := date
                message_type :=
                  match d.msg_type_num with
                  | some v => toString v
                  | none =>
                    (((d.message_type_str).or d.msg_type_str).or
                      d.type_str).getD "0" }

/-- The MongoDB selection filter built in main (migrate.rs lines 157-169):
group_id equals the scope key, msg_ctx.message_id is strictly below the
scope's watermark, and msg_type equals the number 1. Per MongoDB semantics
a comparison on a missing field does not match. -/
def migrationFilter (chat w : Int) (d : MongoDoc) : Bool :=
  (d.group_id == some chat) &&
    (match d.msg_ctx_message_id with
     | some m => decide (m < w)
     | none => false) &&
    (d.msg_type_num == some 1)

/-- The document store's reply to one bulk request, as bulk_index inspects
it: either the send itself fails, or an HTTP response arrives carrying a
success flag for the status code, the optional top-level "errors" boolean of
the body, and per item whether item.index.error is an object. -/
inductive StoreResp where
  | sendErr
  | resp (statusSuccess : Bool) (errorsFlag : Option Bool) (items : List Bool)
deriving DecidableEq, Repr

/-- bulk_index from migrate.rs lines 471-521, as a pure function of the batch
and the store's reply. An empty batch short-circuits to zero accepted before
any network interaction; a send failure or non-success status is an error;
otherwise, when the body's "errors" flag (defaulting to false when absent) is
set, the items whose index.error is an object are counted and subtracted
from the batch size, else the whole batch is accepted. -/
def bulk_index (messages : List EsMessage) (r : StoreResp) : Except String Nat :=
  if messages.isEmpty then .ok 0
  else
    match r with
    | .sendErr => .error "Bulk send failed"
    | .resp statusSuccess errorsFlag items =>
      if !statusSuccess then .error "Bulk index failed"
      else if errorsFlag.getD false then
        .ok (messages.length - (items.filter id).length)
      else .ok messages.length

/-- Number of network calls bulk_index performs for a batch: zero on the
empty-batch short-circuit (migrate.rs lines 476-478), one otherwise. -/
def bulk_index_calls (messages : List EsMessage) : Nat :=
  if messages.isEmpty then 0 else 1

/-- One outcome of the tokio::select! in flush_loop (indexer.rs lines 54-79):
a received record, the channel reporting closure, or a timer tick. -/
inductive FlushEvent where
  | recv (m : ChatMessage)
  | closed
  | tick
deriving DecidableEq, Repr

/-- State of the flush_loop consumer: its buffer, the ordered list of batches
handed to flush_buffer so far, and whether the loop has returned. -/
structure FlushState where
  buffer : List ChatMessage
  flushes : List (List ChatMessage)
  terminated : Bool
deriving DecidableEq, Repr

/-- One iteration of flush_loop (indexer.rs lines 41-81) on one select
outcome. On a received record: append to the buffer and, if the buffer has
reached batch_size, flush it. On channel closure: flush a non-empty buffer
and return. On a tick: flush a non-empty buffer. flush_buffer drains the
whole buffer, so a flush empties it. A terminated loop does nothing. -/
def flushStep (batch_size : Nat) (s : FlushState) (e : FlushEvent) : FlushState :=
  if s.terminated then s
  else
    match e with
    | .recv m =>
      let buf := s.buffer ++ [m]
      if buf.length ≥ batch_size then
        { buffer := [], flushes := s.flushes ++ [buf], terminated := false }
      else
        { s with buffer := buf }
    | .closed =>
      if s.buffer.isEmpty then { s with terminated := true }
      else { buffer := [], flushes := s.flushes ++ [s.buffer], terminated := true }
    | .tick =>
      if s.buffer.isEmpty then s
      else { buffer := [], flushes := s.flushes ++ [s.buffer], terminated := false }

/-- Initial state of flush_loop: empty buffer, nothing flushed, running. -/
def flushInit : FlushState := { buffer := [], flushes := [], terminated := false }

/-- flush_loop run over a finite trace of select outcomes. -/
def flushRun (batch_size : Nat) (events : List FlushEvent) : FlushState :=
  events.foldl (flushStep batch_size) flushInit

/-- GroupEarliestMessage from migrate.rs lines 332-336: a scope key together
with its watermark (the minimum message_id stored for it). -/
structure GroupEarliestMessage where
  chat_id : Int
  earliest_message_id : Int
deriving DecidableEq, Repr

/-- One ES terms-aggregation bucket as get_groups_with_earliest_messages
reads it: an optional integer key and an optional earliest-message value
(float and integer JSON encodings collapsed to Int). -/
structure EsBucket where
  key : Option Int
  earliest_value : Option Int
deriving DecidableEq, Repr

/-- The ES search response consumed by get_groups_with_earliest_messages:
the HTTP status and the bucket array of aggregations.groups (none when the
body carries no such array). -/
structure EsSearchResp where
  status : Nat
  buckets : Option (List EsBucket)
deriving DecidableEq, Repr

/-- StatusCode::is_success from the http crate: a 2xx status. -/
def isSuccessStatus (s : Nat) : Bool := 200 ≤ s && s < 300

/-- Bucket parsing in get_groups_with_earliest_messages (migrate.rs lines
383-407): buckets with both a key and an earliest value become groups, any
other bucket is logged and skipped, and a missing bucket array yields no
groups. -/
def parseBuckets : Option (List EsBucket) → List GroupEarliestMessage
  | none => []
  | some bs => bs.filterMap fun b =>
      match b.key, b.earliest_value with
      | some k, some e => some { chat_id := k, earliest_message_id := e }
      | _, _ => none

/-- get_groups_with_earliest_messages from migrate.rs lines 339-410, as a
function of the store's response: a 404 status returns the empty list (the
index does not exist yet), any other non-success status is an error, and a
success status parses the buckets. -/
def get_groups_with_earliest_messages (resp : EsSearchResp) :
    Except String (List GroupEarliestMessage) :=
  if resp.status = 404 then .ok []
  else if !isSuccessStatus resp.status then .error "Failed to query ES groups"
  else .ok (parseBuckets resp.buckets)

/-- One item produced by the legacy-store cursor in main's per-group loop:
either a fetched document or a fetch error. -/
inductive CursorItem where
  | ok (d : MongoDoc)
  | err
deriving DecidableEq, Repr

/-- Mutable state of main's per-group loop (migrate.rs lines 187-250): the
pending batch, the group's migrated and error counters, and the number of
bulk network calls issued so far in the run. -/
structure GroupState where
  batch : List EsMessage
  migrated : Nat
  errors : Nat
  calls : Nat
deriving DecidableEq, Repr

/-- The batch-flush block duplicated at migrate.rs lines 200-216 (full batch)
and 235-249 (final partial batch). In real mode, bulk_index is invoked on
the batch with the store's reply to this call: an accepted count is added to
the migrated counter, while a failure adds the whole batch size to the error
counter; either way a network call happened. In dry-run mode the batch is
counted as migrated with no call. The batch is cleared in every case. -/
def flushBatch (dry_run : Bool) (store : Nat → StoreResp) (s : GroupState) :
    GroupState :=
  if !dry_run then
    match bulk_index s.batch (store s.calls) with
    | .ok c =>
      { batch := [], migrated := s.migrated + c, errors := s.errors,
        calls := s.calls + 1 }
    | .error _ =>
      { batch := [], migrated := s.migrated, errors := s.errors + s.batch.length,
        calls := s.calls + 1 }
  else
    { batch := [], migrated := s.migrated + s.batch.length, errors := s.errors,
      calls := s.calls }

/-- One iteration of main's cursor loop (migrate.rs lines 191-231): a fetch
error counts one error; a document that fails to parse counts one error; a
parsed document is normalized and appended to the batch, and a batch that
has reached batch_size is flushed. -/
def migStep (dry_run : Bool) (batch_size : Nat) (store : Nat → StoreResp)
    (s : GroupState) : CursorItem → GroupState
  | .err => { s with errors := s.errors + 1 }
  | .ok d =>
    match parse_mongo_document d with
    | .error _ => { s with errors := s.errors + 1 }
    | .ok m =>
      let batch := s.batch ++ [EsMessage.fromMongo m]
      if batch.length ≥ batch_size then
        flushBatch dry_run store { s with batch := batch }
      else
        { s with batch := batch }

/-- Main's processing of one group (migrate.rs lines 187-250): consume the
cursor items, then flush any remaining partial batch. calls0 is the number
of bulk calls already made earlier in the run. -/
def processGroup (dry_run : Bool) (batch_size : Nat) (store : Nat → StoreResp)
    (items : List CursorItem) (calls0 : Nat) : GroupState :=
  let s := items.foldl (migStep dry_run batch_size store)
    { batch := [], migrated := 0, errors := 0, calls := calls0 }
  if s.batch.isEmpty then s else flushBatch dry_run store s

/-- One iteration of main's group loop (migrate.rs lines 151-257): a group
whose legacy match count is zero is skipped with no writes; otherwise its
cursor is consumed and its counters are added to the run totals. The
accumulator is (total migrated, total errors, bulk network calls so far). -/
def groupStep (dry_run : Bool) (batch_size : Nat) (store : Nat → StoreResp)
    (legacy : GroupEarliestMessage → List CursorItem)
    (tot : Nat × Nat × Nat) (g : GroupEarliestMessage) : Nat × Nat × Nat :=
  let items := legacy g
  if items.length = 0 then tot
  else
    let s := processGroup dry_run batch_size store items tot.2.2
    (tot.1 + s.migrated, tot.2.1 + s.errors, s.calls)

/-- Main's loop over groups (migrate.rs lines 148-257). Returns (total
migrated, total errors, total bulk network calls). -/
def runMigration (dry_run : Bool) (batch_size : Nat) (store : Nat → StoreResp)
    (legacy : GroupEarliestMessage → List CursorItem)
    (groups : List GroupEarliestMessage) : Nat × Nat × Nat :=
  groups.foldl (groupStep dry_run batch_size store legacy) (0, 0, 0)

/-- Main of migrate.rs after connecting (lines 129-266): resolve the
watermarks; an error there aborts the run before any bulk call; an empty
group list ends the run as a no-op; otherwise the groups are migrated.
Returns the run outcome (total migrated and errors on success) paired with
the number of bulk network calls made. -/
def mainRun (dry_run : Bool) (batch_size : Nat) (resp : EsSearchResp)
    (legacy : GroupEarliestMessage → List CursorItem)
    (store : Nat → StoreResp) : Except String (Nat × Nat) × Nat :=
  match get_groups_with_earliest_messages resp with
  | .error e => (.error e, 0)
  | .ok groups =>
    if groups.isEmpty then (.ok (0, 0), 0)
    else
      let r := runMigration dry_run batch_size store legacy groups
      (.ok (r.1, r.2.1), r.2.2)

/-- The fields of a teloxide User that record_message reads. -/
structure TgUser where
  id : Int
  username : Option String
  first_name : String
  last_name : Option String
deriving DecidableEq, Repr

/-- The fields of an inbound teloxide Message that record_message and its
helpers read: chat classification, identity, author, textual payload, media
presence used by classify_message, and chat title. -/
structure TgMessage where
  message_id : Int
  chat_id : Int
  is_group : Bool
  is_supergroup : Bool
  from_user : Option TgUser
  text : Option String
  caption : Option String
  date : Int
  reply_to_message_id : Option Int
  has_photo : Bool
  has_video : Bool
  has_document : Bool
  has_sticker : Bool
  has_voice : Bool
  has_animation : Bool
  chat_title : Option String
deriving DecidableEq, Repr

/-- extract_text from message_recorder.rs lines 44-49: the message text,
else the caption, else the empty string. -/
def extract_text (msg : TgMessage) : String :=
  ((msg.text).or msg.caption).getD ""

/-- classify_message from message_recorder.rs lines 51-69: first matching
media kind wins, defaulting to other. -/
def classify_message (msg : TgMessage) : MessageType :=
  if msg.text.isSome then .text
  else if msg.has_photo then .photo
  else if msg.has_video then .video
  else if msg.has_document then .document
  else if msg.has_sticker then .sticker
  else if msg.has_voice then .voice
  else if msg.has_animation then .animation
  else .other

/-- record_message from message_recorder.rs lines 7-42. The Rust function
returns Ok(()) on every path; what varies is whether a ChatMessage is handed
to the indexer, so the embedding returns that record as an Option. A message
not from a group or supergroup, or with empty extracted text, produces
nothing. -/
def record_message (msg : TgMessage) : Option ChatMessage :=
  if !msg.is_group && !msg.is_supergroup then none
  else
    let text := extract_text msg
    if text = "" then none
    else
      some { message_id := msg.message_id
             chat_id := msg.chat_id
             user_id := (msg.from_user).map TgUser.id
             username := (msg.from_user).bind TgUser.username
             display_name :=
               ((msg.from_user).map fun u =>
                 match u.last_name with
                 | some last => u.first_name ++ " " ++ last
                 | none => u.first_name).getD ""
             text := text
             date := msg.date
             reply_to_message_id := msg.reply_to_message_id
             message_type := classify_message msg
             chat_title := msg.chat_title }

/-- Decimal digit character, as Rust's integer Display renders one digit. -/
def decDigitChar : Nat → Char
  | 0 => '0'
  | 1 => '1'
  | 2 => '2'
  | 3 => '3'
  | 4 => '4'
  | 5 => '5'
  | 6 => '6'
  | 7 => '7'
  | 8 => '8'
  | 9 => '9'
  | _ => '*'

/-- Decimal rendering of a natural number, embedding Rust's Display for an
unsigned value: most-significant digit first, no leading zeros, "0" for 0. -/
def natDecimal (n : Nat) : String :=
  if n = 0 then "0"
  else String.mk (((Nat.digits 10 n).reverse).map decDigitChar)

/-- Decimal rendering of an i64, embedding Rust's Display for i64: a leading
minus sign for negative values, decimal digits otherwise. -/
def intDecimal (i : Int) : String :=
  if i < 0 then "-" ++ natDecimal i.natAbs else natDecimal i.natAbs

/-- The document identity scheme shared by both write paths: the string
chat_id ++ "_" ++ message_id. -/
def docId (chat_id message_id : Int) : String :=
  intDecimal chat_id ++ "_" ++ intDecimal message_id

/-- The id built by the live path (indexer.rs line 90). -/
def docIdLive (m : ChatMessage) : String :=
  intDecimal m.chat_id ++ "_" ++ intDecimal m.message_id

/-- The id built by the migration path (migrate.rs line 483). -/
def docIdMigrate (m : EsMessage) : String :=
  intDecimal m.chat_id ++ "_" ++ intDecimal m.message_id

/-- A concrete legacy document used to exercise the migration claims. -/
def exDoc : MongoDoc :=
  { msg_ctx_message_id := some 997
    message_id := none
    group_id := some 42
    chat_id := none
    user_id := some 7
    msg_ctx_command := some "hello"
    text := none
    content := none
    timestamp_dt_ms := none
    date_dt_ms := none
    date_int := some 1700000000
    timestamp_int := none
    msg_type_num := some 1
    message_type_str := none
    msg_type_str := none
    type_str := none }

/-- The parse of exDoc. -/
def exParsed : MongoMessage :=
  { message_id := 997
    chat_id := 42
    user_id := some 7
    text := "hello"
    date := 1700000000
    message_type := "1" }

/-- A concrete normalized document used to exercise the bulk-writer claims. -/
def exEsMessage : EsMessage :=
  { message_id := 997
    chat_id := 42
    user_id := some 7
    text := "hello"
    date := 1700000000
    message_type := "text" }

/-- A concrete migrated document carrying the same scope key and sequence
number as exChatMessage. -/
def exEsMessageId1 : EsMessage :=
  { message_id := 1
    chat_id := 42
    user_id := some 7
    text := "hello"
    date := 1700000000
    message_type := "text" }

/-- A concrete live-path record used to exercise the flush-loop claims. -/
def exChatMessage : ChatMessage :=
  { message_id := 1
    chat_id := 42
    user_id := some 7
    username := some "alice"
    display_name := "Alice"
    text := "hi"
    date := 1700000000
    reply_to_message_id := none
    message_type := .text
    chat_title := some "room" }

/-- A store behavior answering every bulk call with a transport-level success
that reports two per-item errors out of five items. -/
def exPartialStore : Nat → StoreResp :=
  fun _ => StoreResp.resp true (some true) [true, true, false, false, false]

/-- A per-group state holding a full batch of five records and zeroed
counters. -/
def exBatch5 : GroupState :=
  { batch := List.replicate 5 exEsMessage, migrated := 0, errors := 0,
    calls := 0 }

/-- A store behavior whose every bulk call fails at the transport level. -/
def exFailStore : Nat → StoreResp := fun _ => StoreResp.sendErr

/-- A store behavior answering every bulk call with a full success: a 2xx
status and a body without the errors flag. -/
def exOkStore : Nat → StoreResp := fun _ => StoreResp.resp true none []

/-- A concrete scope with watermark 1000. -/
def exGroup : GroupEarliestMessage := { chat_id := 42, earliest_message_id := 1000 }

/-- A legacy store yielding one parseable document for every scope. -/
def exLegacy : GroupEarliestMessage → List CursorItem := fun _ => [CursorItem.ok exDoc]

/-- A concrete group message carrying text, which the live path records. -/
def exGroupMsg : TgMessage :=
  { message_id := 1
    chat_id := 42
    is_group := true
    is_supergroup := false
    from_user := some { id := 7, username := some "alice", first_name := "Alice",
                        last_name := none }
    text := some "hi"
    caption := none
    date := 1700000000
    reply_to_message_id := none
    has_photo := false
    has_video := false
    has_document := false
    has_sticker := false
    has_voice := false
    has_animation := false
    chat_title := some "room" }

/-- A concrete private-chat message, which the live path ignores. -/
def exPrivateMsg : TgMessage :=
  { exGroupMsg with is_group := false, is_supergroup := false }

/-- C1: for a scope with watermark W, the backfill's selection filter admits
only legacy records whose sequence number (msg_ctx.message_id, which the
parser then reports as the record's message_id) is strictly below W; hence
every record it parses out of the cursor has message_id < W and no record
with sequence number ≥ W is ever selected. -/
theorem backfill_selects_only_below_watermark (chat w : Int) (d : MongoDoc)
    (mm : MongoMessage)
    (hf : migrationFilter chat w d = true)
    (hp : parse_mongo_document d = Except.ok mm) :
    mm.message_id < w := by
  unfold migrationFilter at hf
  simp only [Bool.and_eq_true, beq_iff_eq] at hf
  obtain ⟨⟨hg, hm⟩, -⟩ := hf
  rcases hmc : d.msg_ctx_message_id with _ | m
  · rw [hmc] at hm
    exact absurd hm (by simp)
  · rw [hmc] at hm
    simp only [decide_eq_true_eq] at hm
    unfold parse_mongo_document at hp
    rw [hmc, hg] at hp
    simp only [Option.or] at hp
    rcases hd : dateOf d with _ | dt
    · rw [hd] at hp
      cases hp
    · rw [hd] at hp
      cases hp
      exact hm

/-- Witness for C1 at a concrete scope, watermark and document. -/
theorem backfill_selects_only_below_watermark_witness :
    migrationFilter 42 1000 exDoc = true ∧
      parse_mongo_document exDoc = Except.ok exParsed ∧
      exParsed.message_id < 1000 :=
  ⟨by decide, rfl,
    backfill_selects_only_below_watermark 42 1000 exDoc exParsed (by decide) rfl⟩

/-- C10: every record the migration writes carries message_type "text"
regardless of the legacy record's stored type, while the selection filter
only admits legacy documents whose numeric msg_type equals 1. -/
theorem migration_kind_always_text (chat w : Int) (d : MongoDoc)
    (hf : migrationFilter chat w d = true) :
    (∀ m : MongoMessage, (EsMessage.fromMongo m).message_type = "text") ∧
      d.msg_type_num = some 1 := by
  refine ⟨fun m => rfl, ?_⟩
  unfold migrationFilter at hf
  simp only [Bool.and_eq_true, beq_iff_eq] at hf
  exact hf.2

/-- Witness for C10 at a concrete document: the filter admits exDoc with
stored type photo (1), yet the written kind is the string "text". -/
theorem migration_kind_always_text_witness :
    (EsMessage.fromMongo exParsed).message_type = "text" ∧
      exDoc.msg_type_num = some 1 :=
  ⟨(migration_kind_always_text 42 1000 exDoc (by decide)).1 exParsed,
    (migration_kind_always_text 42 1000 exDoc (by decide)).2⟩

/-- C7: for the empty batch the bulk writer short-circuits: it returns zero
accepted whatever the store would answer, and performs no network call. -/
theorem bulk_index_empty_short_circuit (r : StoreResp) :
    bulk_index [] r = Except.ok 0 ∧ bulk_index_calls ([] : List EsMessage) = 0 :=
  ⟨rfl, rfl⟩

/-- C2 (amended): on a transport-level success whose body reports k per-item
errors over a non-empty batch of n records, bulk_index returns accepted =
n − k and no process-level failure occurs; the run adds n − k to its
migrated counter and leaves its error counter unchanged (the k failed items
are logged, not counted). -/
theorem bulk_partial_errors_accepted_count (store : Nat → StoreResp)
    (s : GroupState) (ef : Option Bool) (items : List Bool)
    (hne : s.batch ≠ [])
    (hresp : store s.calls = StoreResp.resp true ef items)
    (hflag : ef.getD false = true) :
    bulk_index s.batch (store s.calls) =
        Except.ok (s.batch.length - (items.filter id).length) ∧
      (flushBatch false store s).migrated =
        s.migrated + (s.batch.length - (items.filter id).length) ∧
      (flushBatch false store s).errors = s.errors := by
  have hb : s.batch.isEmpty = false := by
    rcases hB : s.batch with _ | ⟨a, t⟩
    · exact absurd hB hne
    · rfl
  have h1 : bulk_index s.batch (store s.calls) =
      Except.ok (s.batch.length - (items.filter id).length) := by
    rw [hresp]
    unfold bulk_index
    rw [hb]
    simp [hflag]
  refine ⟨h1, ?_, ?_⟩ <;> unfold flushBatch <;> rw [h1] <;> rfl

/-- Witness for C2: the amended claim at a concrete batch of five records
with two reported item errors. -/
theorem bulk_partial_errors_accepted_count_witness :
    bulk_index exBatch5.batch (exPartialStore exBatch5.calls) =
        Except.ok (exBatch5.batch.length -
          (([true, true, false, false, false].filter id).length)) ∧
      (flushBatch false exPartialStore exBatch5).migrated =
        exBatch5.migrated + (exBatch5.batch.length -
          (([true, true, false, false, false].filter id).length)) ∧
      (flushBatch false exPartialStore exBatch5).errors = exBatch5.errors :=
  bulk_partial_errors_accepted_count exPartialStore exBatch5 (some true)
    [true, true, false, false, false] (by decide) rfl rfl

/-- Counterexample for C2 as stated: a bulk write of 5 records with 2
reported per-item errors yields accepted = 3 and no process-level failure,
but the run's error counter stays 0 — it does not count k = 2 errors. -/
theorem bulk_partial_errors_run_counter_counterexample :
    bulk_index exBatch5.batch (exPartialStore 0) = Except.ok 3 ∧
      (flushBatch false exPartialStore exBatch5).migrated = 3 ∧
      (flushBatch false exPartialStore exBatch5).errors = 0 ∧
      (flushBatch false exPartialStore exBatch5).errors ≠ 2 :=
  ⟨rfl, by decide⟩

/-- C3: when the channel reports closure while the consumer holds K ≥ 1
unflushed records, the consumer performs one final flush of exactly those K
buffered records, terminates, and afterwards reacts to no further event. -/
theorem drain_on_shutdown (batch_size K : Nat) (s : FlushState)
    (hrun : s.terminated = false) (hK : s.buffer.length = K) (hK1 : 1 ≤ K) :
    flushStep batch_size s .closed =
        { buffer := [], flushes := s.flushes ++ [s.buffer], terminated := true } ∧
      s.buffer.length = K ∧
      ∀ e, flushStep batch_size
          { buffer := [], flushes := s.flushes ++ [s.buffer],
            terminated := true } e =
        { buffer := [], flushes := s.flushes ++ [s.buffer],
          terminated := true } := by
  have hne : s.buffer.isEmpty = false := by
    rcases hB : s.buffer with _ | ⟨a, t⟩
    · rw [hB] at hK
      simp at hK
      omega
    · rfl
  refine ⟨?_, hK, fun e => rfl⟩
  unfold flushStep
  rw [hrun, hne]
  rfl

/-- Witness for C3 at a concrete one-record buffer. -/
theorem drain_on_shutdown_witness :
    flushStep 10 { buffer := [exChatMessage], flushes := [], terminated := false }
        FlushEvent.closed =
      { buffer := [], flushes := [[exChatMessage]], terminated := true } :=
  (drain_on_shutdown 10 1
    { buffer := [exChatMessage], flushes := [], terminated := false }
    rfl rfl (by decide)).1

/-- Helper: one flush_loop step only ever appends to the flush history. -/
theorem flushStep_flushes_mono (bs : Nat) (s : FlushState) (e : FlushEvent) :
    ∃ u, (flushStep bs s e).flushes = s.flushes ++ u := by
  unfold flushStep
  split
  · exact ⟨[], (List.append_nil _).symm⟩
  · split <;> (try dsimp only) <;> split <;>
      first
      | exact ⟨_, rfl⟩
      | exact ⟨[], (List.append_nil _).symm⟩

/-- Helper: a flush_loop run only ever appends to the flush history. -/
theorem flushRun_flushes_mono (bs : Nat) (s : FlushState)
    (evs : List FlushEvent) :
    ∃ t, (evs.foldl (flushStep bs) s).flushes = s.flushes ++ t := by
  induction evs generalizing s with
  | nil => exact ⟨[], (List.append_nil _).symm⟩
  | cons e evs ih =>
    obtain ⟨u, hu⟩ := flushStep_flushes_mono bs s e
    obtain ⟨t, ht⟩ := ih (flushStep bs s e)
    exact ⟨u ++ t, by rw [List.foldl_cons, ht, hu, List.append_assoc]⟩

/-- Helper: from a running state whose buffer is below the threshold, a
stream of received records long enough to reach the threshold causes a flush
of a batch of at least threshold size. -/
theorem recv_stream_flushes_full_batch (T : Nat) (ms : List ChatMessage)
    (s : FlushState)
    (hrun : s.terminated = false) (hlt : s.buffer.length < T)
    (hsum : T ≤ s.buffer.length + ms.length) :
    ∃ b ∈ ((ms.map FlushEvent.recv).foldl (flushStep T) s).flushes,
      T ≤ b.length := by
  induction ms generalizing s with
  | nil =>
    simp only [List.length_nil, Nat.add_zero] at hsum
    omega
  | cons m ms ih =>
    simp only [List.map_cons, List.foldl_cons]
    by_cases hfull : (s.buffer ++ [m]).length ≥ T
    · have hstep : flushStep T s (.recv m) =
          { buffer := [], flushes := s.flushes ++ [s.buffer ++ [m]],
            terminated := false } := by
        unfold flushStep
        rw [hrun]
        simp only [Bool.false_eq_true, if_false]
        rw [if_pos hfull]
      rw [hstep]
      obtain ⟨t, ht⟩ := flushRun_flushes_mono T _ (ms.map FlushEvent.recv)
      refine ⟨s.buffer ++ [m], ?_, hfull⟩
      rw [ht]
      simp
    · have hstep : flushStep T s (.recv m) =
          { s with buffer := s.buffer ++ [m] } := by
        unfold flushStep
        rw [hrun]
        simp only [Bool.false_eq_true, if_false]
        exact if_neg hfull
      rw [hstep]
      refine ih _ hrun ?_ ?_
      · simp only [List.length_append, List.length_cons, List.length_nil] at hfull ⊢
        omega
      · simp only [List.length_append, List.length_cons, List.length_nil] at hsum ⊢
        omega

/-- C6: with size threshold T ≥ 1 and N ≥ T records received with no timer
tick in between, the consumer flushes at least one batch of size ≥ T before
the timer fires: the flush triggers as soon as the buffer reaches T. -/
theorem size_trigger_flush (T : Nat) (ms : List ChatMessage)
    (hT : 1 ≤ T) (hN : T ≤ ms.length) :
    ∃ b ∈ (flushRun T (ms.map FlushEvent.recv)).flushes, T ≤ b.length := by
  unfold flushRun
  exact recv_stream_flushes_full_batch T ms flushInit rfl
    (by simpa [flushInit] using hT) (by simpa [flushInit] using hN)

/-- Witness for C6 at threshold 1 and a single received record. -/
theorem size_trigger_flush_witness :
    ∃ b ∈ (flushRun 1 ([exChatMessage].map FlushEvent.recv)).flushes,
      1 ≤ b.length :=
  size_trigger_flush 1 [exChatMessage] (by decide) (by decide)

/-- C5: a 404 from the store (index absent) makes the watermark resolver
return the empty result, not an error, and the whole migration is then a
no-op performing zero bulk calls; any other non-success status is a hard
error that aborts the run with zero bulk calls performed. -/
theorem watermark_resolver_missing_index (resp : EsSearchResp)
    (legacy : GroupEarliestMessage → List CursorItem) (store : Nat → StoreResp)
    (dry_run : Bool) (batch_size : Nat) :
    (resp.status = 404 →
      get_groups_with_earliest_messages resp = Except.ok [] ∧
        mainRun dry_run batch_size resp legacy store = (Except.ok (0, 0), 0)) ∧
    (resp.status ≠ 404 → isSuccessStatus resp.status = false →
      (∃ e, get_groups_with_earliest_messages resp = Except.error e) ∧
        (∃ e, (mainRun dry_run batch_size resp legacy store).1 =
          Except.error e) ∧
        (mainRun dry_run batch_size resp legacy store).2 = 0) := by
  constructor
  · intro h404
    have hg : get_groups_with_earliest_messages resp = Except.ok [] := by
      unfold get_groups_with_earliest_messages
      rw [if_pos h404]
    refine ⟨hg, ?_⟩
    unfold mainRun
    rw [hg]
    rfl
  · intro hne hns
    have hg : get_groups_with_earliest_messages resp =
        Except.error "Failed to query ES groups" := by
      unfold get_groups_with_earliest_messages
      rw [if_neg hne, if_pos (by rw [hns]; rfl)]
    refine ⟨⟨_, hg⟩, ⟨"Failed to query ES groups", ?_⟩, ?_⟩ <;>
      · unfold mainRun
        rw [hg]

/-- Witness for C5 at a concrete 404 response and a concrete 500 response. -/
theorem watermark_resolver_missing_index_witness :
    (get_groups_with_earliest_messages { status := 404, buckets := none } =
        Except.ok [] ∧
      mainRun false 500 { status := 404, buckets := none } exLegacy exFailStore =
        (Except.ok (0, 0), 0)) ∧
    (∃ e, (mainRun false 500 { status := 500, buckets := none } exLegacy
        exFailStore).1 = Except.error e) :=
  ⟨(watermark_resolver_missing_index { status := 404, buckets := none }
      exLegacy exFailStore false 500).1 rfl,
    ((watermark_resolver_missing_index { status := 500, buckets := none }
      exLegacy exFailStore false 500).2 (by decide) (by decide)).2.1⟩

/-- Helper: the batch-flush block under a store whose bulk writes all fully
succeed credits exactly the batch size in real mode. -/
theorem flushBatch_full_success (store : Nat → StoreResp) (s : GroupState)
    (hne : s.batch ≠ [])
    (hstore : ∀ i (msgs : List EsMessage), msgs ≠ [] →
      bulk_index msgs (store i) = Except.ok msgs.length) :
    flushBatch false store s =
      { batch := [], migrated := s.migrated + s.batch.length,
        errors := s.errors, calls := s.calls + 1 } := by
  unfold flushBatch
  rw [hstore s.calls s.batch hne]
  rfl

/-- Helper: the batch-flush block in dry-run mode credits the batch size and
performs no call. -/
theorem flushBatch_dry (store : Nat → StoreResp) (s : GroupState) :
    flushBatch true store s =
      { batch := [], migrated := s.migrated + s.batch.length,
        errors := s.errors, calls := s.calls } := rfl

/-- Helper: equation of migStep on a cursor fetch error. -/
theorem migStep_err (dry : Bool) (bs : Nat) (store : Nat → StoreResp)
    (s : GroupState) :
    migStep dry bs store s CursorItem.err = { s with errors := s.errors + 1 } :=
  rfl

/-- Helper: equation of migStep on a document that fails to parse. -/
theorem migStep_parse_err (dry : Bool) (bs : Nat) (store : Nat → StoreResp)
    (s : GroupState) (d : MongoDoc) (e : String)
    (hp : parse_mongo_document d = Except.error e) :
    migStep dry bs store s (CursorItem.ok d) =
      { s with errors := s.errors + 1 } := by
  unfold migStep
  dsimp only
  rw [hp]

/-- Helper: equation of migStep on a parsed document that fills the batch. -/
theorem migStep_parse_ok_full (dry : Bool) (bs : Nat) (store : Nat → StoreResp)
    (s : GroupState) (d : MongoDoc) (m : MongoMessage)
    (hp : parse_mongo_document d = Except.ok m)
    (hfull : (s.batch ++ [EsMessage.fromMongo m]).length ≥ bs) :
    migStep dry bs store s (CursorItem.ok d) =
      flushBatch dry store { s with batch := s.batch ++ [EsMessage.fromMongo m] } := by
  unfold migStep
  dsimp only
  rw [hp]
  dsimp only
  rw [if_pos hfull]

/-- Helper: equation of migStep on a parsed document below the threshold. -/
theorem migStep_parse_ok_small (dry : Bool) (bs : Nat) (store : Nat → StoreResp)
    (s : GroupState) (d : MongoDoc) (m : MongoMessage)
    (hp : parse_mongo_document d = Except.ok m)
    (hsmall : ¬(s.batch ++ [EsMessage.fromMongo m]).length ≥ bs) :
    migStep dry bs store s (CursorItem.ok d) =
      { s with batch := s.batch ++ [EsMessage.fromMongo m] } := by
  unfold migStep
  dsimp only
  rw [hp]
  dsimp only
  rw [if_neg hsmall]

/-- Helper: under a fully succeeding store, the cursor fold keeps dry-run and
real-run states in lockstep on batch, migrated and errors (the call counters
may differ). -/
theorem migFold_dry_real (batch_size : Nat) (store : Nat → StoreResp)
    (hstore : ∀ i (msgs : List EsMessage), msgs ≠ [] →
      bulk_index msgs (store i) = Except.ok msgs.length)
    (items : List CursorItem) :
    ∀ sd sr : GroupState, sd.batch = sr.batch → sd.migrated = sr.migrated →
      sd.errors = sr.errors →
      (items.foldl (migStep true batch_size store) sd).batch =
          (items.foldl (migStep false batch_size store) sr).batch ∧
        (items.foldl (migStep true batch_size store) sd).migrated =
          (items.foldl (migStep false batch_size store) sr).migrated ∧
        (items.foldl (migStep true batch_size store) sd).errors =
          (items.foldl (migStep false batch_size store) sr).errors := by
  induction items with
  | nil => exact fun sd sr h1 h2 h3 => ⟨h1, h2, h3⟩
  | cons it items ih =>
    intro sd sr h1 h2 h3
    simp only [List.foldl_cons]
    rcases it with d | _
    · rcases hp : parse_mongo_document d with e | m
      · rw [migStep_parse_err true batch_size store sd d e hp,
            migStep_parse_err false batch_size store sr d e hp]
        exact ih _ _ h1 h2 (by simp [h3])
      · by_cases hfull : (sr.batch ++ [EsMessage.fromMongo m]).length ≥ batch_size
        · have hfulld : (sd.batch ++ [EsMessage.fromMongo m]).length ≥ batch_size := by
            rw [h1]
            exact hfull
          rw [migStep_parse_ok_full true batch_size store sd d m hp hfulld,
              migStep_parse_ok_full false batch_size store sr d m hp hfull,
              flushBatch_dry store,
              flushBatch_full_success store _ (by simp) hstore]
          exact ih _ _ rfl (by simp [h1, h2]) (by simp [h3])
        · have hsmalld : ¬(sd.batch ++ [EsMessage.fromMongo m]).length ≥ batch_size := by
            rw [h1]
            exact hfull
          rw [migStep_parse_ok_small true batch_size store sd d m hp hsmalld,
              migStep_parse_ok_small false batch_size store sr d m hp hfull]
          exact ih _ _ (by simp [h1]) (by simp [h2]) (by simp [h3])
    · rw [migStep_err, migStep_err]
      exact ih _ _ h1 h2 (by simp [h3])

/-- Helper: per-group processing produces identical migrated and error counts
in dry-run and real mode when every bulk write fully succeeds, for any call
counters. -/
theorem processGroup_dry_real (batch_size : Nat) (store : Nat → StoreResp)
    (hstore : ∀ i (msgs : List EsMessage), msgs ≠ [] →
      bulk_index msgs (store i) = Except.ok msgs.length)
    (items : List CursorItem) (c1 c2 : Nat) :
    (processGroup true batch_size store items c1).migrated =
        (processGroup false batch_size store items c2).migrated ∧
      (processGroup true batch_size store items c1).errors =
        (processGroup false batch_size store items c2).errors := by
  unfold processGroup
  obtain ⟨hb, hm, he⟩ := migFold_dry_real batch_size store hstore items
    { batch := [], migrated := 0, errors := 0, calls := c1 }
    { batch := [], migrated := 0, errors := 0, calls := c2 } rfl rfl rfl
  set sd := items.foldl (migStep true batch_size store)
    { batch := [], migrated := 0, errors := 0, calls := c1 }
  set sr := items.foldl (migStep false batch_size store)
    { batch := [], migrated := 0, errors := 0, calls := c2 }
  by_cases hemp : sd.batch.isEmpty = true
  · rw [if_pos hemp, if_pos (by rw [← hb]; exact hemp)]
    exact ⟨hm, he⟩
  · rw [if_neg hemp, if_neg (by rw [← hb]; exact hemp)]
    have hne : sr.batch ≠ [] := by
      intro h
      exact hemp (by rw [hb, h]; rfl)
    rw [flushBatch_dry store, flushBatch_full_success store _ hne hstore]
    exact ⟨by simp [hm, hb], by simp [he]⟩

/-- Helper: dry-run per-group processing performs no bulk call: the call
counter is returned unchanged. -/
theorem processGroup_dry_calls (batch_size : Nat) (store : Nat → StoreResp)
    (items : List CursorItem) (c : Nat) :
    (processGroup true batch_size store items c).calls = c := by
  have hfold : ∀ (its : List CursorItem) (s : GroupState),
      (its.foldl (migStep true batch_size store) s).calls = s.calls := by
    intro its
    induction its with
    | nil => exact fun s => rfl
    | cons it its ih =>
      intro s
      simp only [List.foldl_cons]
      rcases it with d | _
      · rcases hp : parse_mongo_document d with e | m
        · rw [migStep_parse_err true batch_size store s d e hp]
          exact ih _
        · by_cases hfull : (s.batch ++ [EsMessage.fromMongo m]).length ≥ batch_size
          · rw [migStep_parse_ok_full true batch_size store s d m hp hfull,
                flushBatch_dry store]
            exact ih _
          · rw [migStep_parse_ok_small true batch_size store s d m hp hfull]
            exact ih _
      · rw [migStep_err]
        exact ih _
  unfold processGroup
  dsimp only
  split
  · exact hfold _ _
  · rw [flushBatch_dry store]
    exact hfold _ _

/-- Helper: equation of groupStep on a scope with no matching records. -/
theorem groupStep_skip (dry : Bool) (bs : Nat) (store : Nat → StoreResp)
    (legacy : GroupEarliestMessage → List CursorItem) (tot : Nat × Nat × Nat)
    (g : GroupEarliestMessage) (h : (legacy g).length = 0) :
    groupStep dry bs store legacy tot g = tot := by
  unfold groupStep
  dsimp only
  rw [if_pos h]

/-- Helper: equation of groupStep on a scope with matching records. -/
theorem groupStep_proc (dry : Bool) (bs : Nat) (store : Nat → StoreResp)
    (legacy : GroupEarliestMessage → List CursorItem) (tot : Nat × Nat × Nat)
    (g : GroupEarliestMessage) (h : ¬(legacy g).length = 0) :
    groupStep dry bs store legacy tot g =
      (tot.1 + (processGroup dry bs store (legacy g) tot.2.2).migrated,
        tot.2.1 + (processGroup dry bs store (legacy g) tot.2.2).errors,
        (processGroup dry bs store (legacy g) tot.2.2).calls) := by
  unfold groupStep
  dsimp only
  rw [if_neg h]

/-- Helper: under a fully succeeding store the group loop accumulates equal
migrated and error totals in dry-run and real mode, from accumulators that
agree on those totals. -/
theorem runFold_dry_real (batch_size : Nat) (store : Nat → StoreResp)
    (hstore : ∀ i (msgs : List EsMessage), msgs ≠ [] →
      bulk_index msgs (store i) = Except.ok msgs.length)
    (legacy : GroupEarliestMessage → List CursorItem)
    (groups : List GroupEarliestMessage) :
    ∀ td tr : Nat × Nat × Nat, td.1 = tr.1 → td.2.1 = tr.2.1 →
      (groups.foldl (groupStep true batch_size store legacy) td).1 =
          (groups.foldl (groupStep false batch_size store legacy) tr).1 ∧
        (groups.foldl (groupStep true batch_size store legacy) td).2.1 =
          (groups.foldl (groupStep false batch_size store legacy) tr).2.1 := by
  induction groups with
  | nil => exact fun td tr h1 h2 => ⟨h1, h2⟩
  | cons g gs ih =>
    intro td tr h1 h2
    simp only [List.foldl_cons]
    by_cases h : (legacy g).length = 0
    · rw [groupStep_skip true batch_size store legacy td g h,
          groupStep_skip false batch_size store legacy tr g h]
      exact ih td tr h1 h2
    · rw [groupStep_proc true batch_size store legacy td g h,
          groupStep_proc false batch_size store legacy tr g h]
      obtain ⟨hm, he⟩ := processGroup_dry_real batch_size store hstore
        (legacy g) td.2.2 tr.2.2
      exact ih _ _ (by simp [h1, hm]) (by simp [h2, he])

/-- Helper: the dry-run group loop performs no bulk call at all. -/
theorem runFold_dry_calls (batch_size : Nat) (store : Nat → StoreResp)
    (legacy : GroupEarliestMessage → List CursorItem)
    (groups : List GroupEarliestMessage) :
    ∀ tot : Nat × Nat × Nat,
      (groups.foldl (groupStep true batch_size store legacy) tot).2.2 =
        tot.2.2 := by
  induction groups with
  | nil => exact fun tot => rfl
  | cons g gs ih =>
    intro tot
    simp only [List.foldl_cons]
    by_cases h : (legacy g).length = 0
    · rw [groupStep_skip true batch_size store legacy tot g h]
      exact ih _
    · rw [groupStep_proc true batch_size store legacy tot g h, ih _]
      exact processGroup_dry_calls batch_size store (legacy g) tot.2.2

/-- C4 (amended): provided every bulk write the store answers is a full
success (2xx with no per-item errors), the dry-run and the real run produce
identical per-scope and total accepted/error counts; the dry-run performs
zero bulk-write calls to the store unconditionally. Without that proviso the
counts can differ, as the recorded counterexample shows. -/
theorem dry_run_equivalence (batch_size : Nat) (store : Nat → StoreResp)
    (legacy : GroupEarliestMessage → List CursorItem)
    (groups : List GroupEarliestMessage)
    (hstore : ∀ i (msgs : List EsMessage), msgs ≠ [] →
      bulk_index msgs (store i) = Except.ok msgs.length) :
    (∀ (items : List CursorItem) (c1 c2 : Nat),
      (processGroup true batch_size store items c1).migrated =
          (processGroup false batch_size store items c2).migrated ∧
        (processGroup true batch_size store items c1).errors =
          (processGroup false batch_size store items c2).errors) ∧
    (runMigration true batch_size store legacy groups).1 =
        (runMigration false batch_size store legacy groups).1 ∧
      (runMigration true batch_size store legacy groups).2.1 =
        (runMigration false batch_size store legacy groups).2.1 ∧
      (runMigration true batch_size store legacy groups).2.2 = 0 := by
  refine ⟨fun items c1 c2 =>
    processGroup_dry_real batch_size store hstore items c1 c2, ?_, ?_, ?_⟩
  · exact (runFold_dry_real batch_size store hstore legacy groups
      (0, 0, 0) (0, 0, 0) rfl rfl).1
  · exact (runFold_dry_real batch_size store hstore legacy groups
      (0, 0, 0) (0, 0, 0) rfl rfl).2
  · exact runFold_dry_calls batch_size store legacy groups (0, 0, 0)

/-- Witness for C4 at a concrete run: one scope, one record, a fully
succeeding store. -/
theorem dry_run_equivalence_witness :
    (runMigration true 1 exOkStore exLegacy [exGroup]).1 =
        (runMigration false 1 exOkStore exLegacy [exGroup]).1 ∧
      (runMigration true 1 exOkStore exLegacy [exGroup]).2.1 =
        (runMigration false 1 exOkStore exLegacy [exGroup]).2.1 ∧
      (runMigration true 1 exOkStore exLegacy [exGroup]).2.2 = 0 :=
  (dry_run_equivalence 1 exOkStore exLegacy [exGroup]
    (by
      intro i msgs h
      rcases msgs with _ | ⟨a, t⟩
      · exact absurd rfl h
      · rfl)).2

/-- Counterexample for C4 as stated: with one scope, one parseable legacy
record, batch size 1 and a store whose bulk call fails at the transport
level, the dry run counts 1 migrated and 0 errors while the real run counts
0 migrated and 1 error: the counts are not identical for every input. -/
theorem dry_run_equivalence_counterexample :
    (runMigration true 1 exFailStore exLegacy [exGroup]).1 = 1 ∧
      (runMigration true 1 exFailStore exLegacy [exGroup]).2.1 = 0 ∧
      (runMigration false 1 exFailStore exLegacy [exGroup]).1 = 0 ∧
      (runMigration false 1 exFailStore exLegacy [exGroup]).2.1 = 1 ∧
      (runMigration true 1 exFailStore exLegacy [exGroup]).1 ≠
        (runMigration false 1 exFailStore exLegacy [exGroup]).1 := by
  refine ⟨?_, ?_, ?_, ?_, ?_⟩ <;> decide

/-- C9: the live ingestion entry point enqueues a record only when the chat
is a group or supergroup and the extracted body text (message text or
caption) is non-empty, and any record it enqueues carries exactly that
non-empty text; in every other case nothing is enqueued (and the Rust
function returns Ok on all paths by construction of the embedding). -/
theorem record_message_guard (msg : TgMessage) :
    (∀ r, record_message msg = some r →
      (msg.is_group = true ∨ msg.is_supergroup = true) ∧
        r.text = extract_text msg ∧ r.text ≠ "") ∧
    ((msg.is_group = false ∧ msg.is_supergroup = false) ∨
        extract_text msg = "" →
      record_message msg = none) := by
  constructor
  · intro r hr
    unfold record_message at hr
    by_cases hg : (!msg.is_group && !msg.is_supergroup) = true
    · rw [if_pos hg] at hr
      cases hr
    · rw [if_neg hg] at hr
      by_cases ht : extract_text msg = ""
      · rw [if_pos ht] at hr
        cases hr
      · rw [if_neg ht] at hr
        simp only [Bool.and_eq_true, Bool.not_eq_true'] at hg
        refine ⟨?_, ?_, ?_⟩
        · rcases hG : msg.is_group with _ | _
          · rcases hS : msg.is_supergroup with _ | _
            · exact absurd ⟨hG, hS⟩ hg
            · exact Or.inr rfl
          · exact Or.inl rfl
        · cases hr
          rfl
        · cases hr
          exact ht
  · intro h
    unfold record_message
    rcases h with ⟨hG, hS⟩ | ht
    · rw [if_pos (by rw [hG, hS]; rfl)]
    · rw [ht]
      by_cases hg : (!msg.is_group && !msg.is_supergroup) = true
      · rw [if_pos hg]
      · rw [if_neg hg, if_pos rfl]

/-- Witness for C9: a private-chat message is dropped; a group message with
text "hi" yields exactly the recorded ChatMessage with that text. -/
theorem record_message_guard_witness :
    record_message exPrivateMsg = none ∧
      ((exGroupMsg.is_group = true ∨ exGroupMsg.is_supergroup = true) ∧
        exChatMessage.text = extract_text exGroupMsg ∧
        exChatMessage.text ≠ "") :=
  ⟨(record_message_guard exPrivateMsg).2 (Or.inl ⟨rfl, rfl⟩),
    (record_message_guard exGroupMsg).1 exChatMessage rfl⟩

/-- Helper: decimal digit characters are injective below the base. -/
theorem decDigitChar_inj : ∀ a < 10, ∀ b < 10,
    decDigitChar a = decDigitChar b → a = b := by decide

/-- Helper: decimal digit characters are digits. -/
theorem decDigitChar_digit : ∀ a < 10, (decDigitChar a).isDigit = true := by
  decide

/-- Helper: mapping decDigitChar over digit lists is injective. -/
theorem map_decDigitChar_inj : ∀ l1 l2 : List Nat, (∀ d ∈ l1, d < 10) →
    (∀ d ∈ l2, d < 10) → l1.map decDigitChar = l2.map decDigitChar →
    l1 = l2 := by
  intro l1
  induction l1 with
  | nil =>
    intro l2 _ _ h
    cases l2 with
    | nil => rfl
    | cons b u => simp at h
  | cons a t ih =>
    intro l2 h1 h2 h
    cases l2 with
    | nil => simp at h
    | cons b u =>
      simp only [List.map_cons, List.cons.injEq] at h
      have ha : a = b :=
        decDigitChar_inj a (h1 a (List.mem_cons_self a t)) b
          (h2 b (List.mem_cons_self b u)) h.1
      have ht : t = u :=
        ih u (fun d hd => h1 d (List.mem_cons_of_mem a hd))
          (fun d hd => h2 d (List.mem_cons_of_mem b hd)) h.2
      rw [ha, ht]

/-- Helper: every character of a rendered natural number is a digit. -/
theorem natDecimal_chars (n : Nat) :
    ∀ c ∈ (natDecimal n).data, c.isDigit = true := by
  intro c hc
  unfold natDecimal at hc
  by_cases h : n = 0
  · rw [if_pos h] at hc
    have h0 : (("0" : String)).data = ['0'] := rfl
    rw [h0] at hc
    have : c = '0' := by simpa using hc
    rw [this]
    rfl
  · rw [if_neg h] at hc
    obtain ⟨d, hd, hdc⟩ := List.mem_map.mp hc
    rw [← hdc]
    exact decDigitChar_digit d
      (Nat.digits_lt_base (by norm_num) (List.mem_reverse.mp hd))

/-- Helper: equal character data makes equal strings. -/
theorem string_data_eq {s t : String} (h : s.data = t.data) : s = t := by
  cases s
  cases t
  exact congrArg String.mk h

/-- Helper: the decimal rendering of natural numbers is injective. -/
theorem natDecimal_inj (m n : Nat) (h : natDecimal m = natDecimal n) :
    m = n := by
  unfold natDecimal at h
  by_cases hm : m = 0 <;> by_cases hn : n = 0
  · rw [hm, hn]
  · exfalso
    rw [if_pos hm, if_neg hn] at h
    have hd : (['0'] : List Char) =
        ((Nat.digits 10 n).reverse).map decDigitChar := congrArg String.data h
    rcases hr : (Nat.digits 10 n).reverse with _ | ⟨d, r⟩
    · rw [hr] at hd
      simp at hd
    · rw [hr] at hd
      simp only [List.map_cons, List.cons.injEq] at hd
      obtain ⟨hd0, hdr⟩ := hd
      have hrnil : r = [] := by
        rcases r with _ | ⟨x, y⟩
        · rfl
        · simp at hdr
      have hdig : Nat.digits 10 n = [d] := by
        have := congrArg List.reverse hr
        simpa [hrnil] using this
      have hdlt : d < 10 :=
        Nat.digits_lt_base (by norm_num) (by rw [hdig]; exact List.mem_cons_self d [])
      have hd0' : d = 0 :=
        decDigitChar_inj d hdlt 0 (by norm_num) hd0.symm
      have := Nat.ofDigits_digits 10 n
      rw [hdig, hd0'] at this
      simp [Nat.ofDigits] at this
      exact hn this.symm
  · exfalso
    rw [if_neg hm, if_pos hn] at h
    have hd : ((Nat.digits 10 m).reverse).map decDigitChar =
        (['0'] : List Char) := congrArg String.data h
    rcases hr : (Nat.digits 10 m).reverse with _ | ⟨d, r⟩
    · rw [hr] at hd
      simp at hd
    · rw [hr] at hd
      simp only [List.map_cons, List.cons.injEq] at hd
      obtain ⟨hd0, hdr⟩ := hd
      have hrnil : r = [] := by
        rcases r with _ | ⟨x, y⟩
        · rfl
        · simp at hdr
      have hdig : Nat.digits 10 m = [d] := by
        have := congrArg List.reverse hr
        simpa [hrnil] using this
      have hdlt : d < 10 :=
        Nat.digits_lt_base (by norm_num) (by rw [hdig]; exact List.mem_cons_self d [])
      have hd0' : d = 0 :=
        decDigitChar_inj d hdlt 0 (by norm_num) hd0
      have := Nat.ofDigits_digits 10 m
      rw [hdig, hd0'] at this
      simp [Nat.ofDigits] at this
      exact hm this.symm
  · rw [if_neg hm, if_neg hn] at h
    have hd : ((Nat.digits 10 m).reverse).map decDigitChar =
        ((Nat.digits 10 n).reverse).map decDigitChar := congrArg String.data h
    have hrev := map_decDigitChar_inj _ _
      (fun d hd => Nat.digits_lt_base (by norm_num) (List.mem_reverse.mp hd))
      (fun d hd => Nat.digits_lt_base (by norm_num) (List.mem_reverse.mp hd)) hd
    have hdig : Nat.digits 10 m = Nat.digits 10 n := by
      have := congrArg List.reverse hrev
      simpa using this
    have := congrArg (Nat.ofDigits 10) hdig
    rwa [Nat.ofDigits_digits, Nat.ofDigits_digits] at this

/-- Helper: the decimal rendering of integers is injective. -/
theorem intDecimal_inj (i j : Int) (h : intDecimal i = intDecimal j) :
    i = j := by
  unfold intDecimal at h
  by_cases hi : i < 0 <;> by_cases hj : j < 0
  · rw [if_pos hi, if_pos hj] at h
    have hd : '-' :: (natDecimal i.natAbs).data =
        '-' :: (natDecimal j.natAbs).data := congrArg String.data h
    injection hd with h1 h2
    have := natDecimal_inj _ _ (string_data_eq h2)
    omega
  · exfalso
    rw [if_pos hi, if_neg hj] at h
    have hd : '-' :: (natDecimal i.natAbs).data =
        (natDecimal j.natAbs).data := congrArg String.data h
    have hmem : '-' ∈ (natDecimal j.natAbs).data := by
      rw [← hd]
      exact List.mem_cons_self _ _
    exact absurd (natDecimal_chars j.natAbs '-' hmem) (by decide)
  · exfalso
    rw [if_neg hi, if_pos hj] at h
    have hd : (natDecimal i.natAbs).data =
        '-' :: (natDecimal j.natAbs).data := congrArg String.data h
    have hmem : '-' ∈ (natDecimal i.natAbs).data := by
      rw [hd]
      exact List.mem_cons_self _ _
    exact absurd (natDecimal_chars i.natAbs '-' hmem) (by decide)
  · rw [if_neg hi, if_neg hj] at h
    have := natDecimal_inj _ _ h
    omega

/-- Helper: the underscore separator never occurs in a rendered integer. -/
theorem underscore_notin_intDecimal (i : Int) :
    '_' ∉ (intDecimal i).data := by
  intro hmem
  unfold intDecimal at hmem
  by_cases hi : i < 0
  · rw [if_pos hi] at hmem
    have hd : (("-" ++ natDecimal i.natAbs : String)).data =
        '-' :: (natDecimal i.natAbs).data := rfl
    rw [hd] at hmem
    rcases List.mem_cons.mp hmem with h | h
    · exact absurd h (by decide)
    · exact absurd (natDecimal_chars i.natAbs '_' h) (by decide)
  · rw [if_neg hi] at hmem
    exact absurd (natDecimal_chars i.natAbs '_' hmem) (by decide)

/-- Helper: appends separated by a character absent from both sides split
uniquely at that separator. -/
theorem append_sep_inj : ∀ a : List Char, ∀ b c d : List Char,
    '_' ∉ a → '_' ∉ c → a ++ '_' :: b = c ++ '_' :: d → a = c ∧ b = d := by
  intro a
  induction a with
  | nil =>
    intro b c d _ hc h
    cases c with
    | nil =>
      simp only [List.nil_append] at h
      injection h with h1 h2
      exact ⟨rfl, h2⟩
    | cons y ys =>
      simp only [List.nil_append, List.cons_append] at h
      injection h with h1 h2
      exact absurd (by rw [h1]; exact List.mem_cons_self y ys) hc
  | cons x xs ih =>
    intro b c d ha hc h
    cases c with
    | nil =>
      simp only [List.cons_append, List.nil_append] at h
      injection h with h1 h2
      exact absurd (by rw [← h1]; exact List.mem_cons_self x xs) ha
    | cons y ys =>
      simp only [List.cons_append] at h
      injection h with h1 h2
      obtain ⟨hac, hbd⟩ := ih b ys d
        (fun hm => ha (List.mem_cons_of_mem x hm))
        (fun hm => hc (List.mem_cons_of_mem y hm)) h2
      exact ⟨by rw [h1, hac], hbd⟩

/-- C8: the document identifier id(s, n) = "{s}_{n}" is deterministic (a
pure function: repeated calls agree, and the live call site and the
migration call site build the same identifier from the same scope key and
sequence number), and injective over the whole input domain: distinct
(scope, sequence) pairs render to distinct identifiers. -/
theorem doc_id_deterministic_injective :
    (∀ s n : Int, docId s n = docId s n) ∧
    (∀ (m : ChatMessage) (e : EsMessage), m.chat_id = e.chat_id →
      m.message_id = e.message_id → docIdLive m = docIdMigrate e) ∧
    (∀ s1 n1 s2 n2 : Int, docId s1 n1 = docId s2 n2 → s1 = s2 ∧ n1 = n2) := by
  refine ⟨fun s n => rfl, fun m e hc hm => ?_, fun s1 n1 s2 n2 h => ?_⟩
  · unfold docIdLive docIdMigrate
    rw [hc, hm]
  · unfold docId at h
    have hd0 := congrArg String.data h
    simp only [String.data_append] at hd0
    rw [List.append_assoc, List.append_assoc, List.singleton_append,
      List.singleton_append] at hd0
    obtain ⟨h1, h2⟩ := append_sep_inj _ _ _ _
      (underscore_notin_intDecimal s1) (underscore_notin_intDecimal s2) hd0
    exact ⟨intDecimal_inj _ _ (string_data_eq h1),
      intDecimal_inj _ _ (string_data_eq h2)⟩

/-- Witness for C8: the two call sites agree on a concrete record pair, and
injectivity applied at a concrete identifier equation. -/
theorem doc_id_deterministic_injective_witness :
    docIdLive exChatMessage = docIdMigrate exEsMessageId1 ∧
      ((42 : Int) = 42 ∧ (1 : Int) = 1) :=
  ⟨doc_id_deterministic_injective.2.1 exChatMessage exEsMessageId1 rfl rfl,
    doc_id_deterministic_injective.2.2 42 1 42 1 rfl⟩

end SearchBot
